import Mathlib

/-!
# Verification of `FoodCode/visualizer.py`

A shallow embedding of the `Visualizer` class from `FoodCode/visualizer.py`
and proofs about its behavior.

The class wraps three external collaborators: the `cv2` display library, the
`otx` `ShapeDrawer`, and a `BaseStreamer`.  Their calls are modelled as an
explicit trace of `Event`s; image buffers (`np.ndarray`) carry an identity so
that aliasing/mutation claims can be stated; Python's raising `/` and list
indexing are modelled with `Except`; Python floats are modelled as `ℚ`.
-/

namespace FoodCode

/-- A pixel: an ordered triple of channel values (first, middle, last channel). -/
abbrev Pixel := Nat × Nat × Nat

/-- Pixel contents of an image buffer (the value stored in an `np.ndarray`). -/
abbrev PixelData := List Pixel

/-- An `np.ndarray` reference: a buffer identity together with the contents the
buffer held when the reference was formed. -/
structure NDArray where
  id : Nat
  data : PixelData
deriving DecidableEq

/-- The buffer store: ids below `next` are allocated; `mem` gives each buffer's
current contents. -/
structure Heap where
  next : Nat
  mem : Nat → PixelData

/-- Opaque external scene value (the otx `AnnotationSceneEntity` argument);
its structure is irrelevant to this file, so it is a wrapped token. -/
structure AnnScene where
  tok : Nat
deriving DecidableEq

/-- Opaque external label value. -/
abbrev Label := Nat

/-- The external otx `ShapeDrawer` collaborator: the two construction flags,
plus its rendering behavior `render`, which is uninterpreted (a parameter of
the model). -/
structure ShapeDrawer where
  show_count : Bool
  is_one_label : Bool
  render : PixelData → AnnScene → List Label → PixelData

/-- `cv2.COLOR_RGB2BGR` applied to pixel contents: each pixel's channel order
is reversed. -/
def bgrOfRgb (d : PixelData) : PixelData :=
  d.map (fun p => (p.2.2, p.2.1, p.1))

/-- `cv2.cvtColor(image, cv2.COLOR_RGB2BGR)`: allocates a fresh output buffer
holding the converted contents; the input buffer is not written. -/
def cvtColor_RGB2BGR (h : Heap) (img : NDArray) : NDArray × Heap :=
  let d := bgrOfRgb img.data
  (⟨h.next, d⟩, ⟨h.next + 1, fun i => if i = h.next then d else h.mem i⟩)

/-- `ShapeDrawer.draw(image, annotation, labels)` (external collaborator): it
renders onto the buffer it is handed and returns that buffer; the contents it
produces are its uninterpreted `render` applied to the image contents, the
scene and the label override. -/
def ShapeDrawer.draw (sd : ShapeDrawer) (h : Heap) (img : NDArray)
    (a : AnnScene) (labels : List Label) : NDArray × Heap :=
  let d := sd.render img.data a labels
  (⟨img.id, d⟩, ⟨h.next, fun i => if i = img.id then d else h.mem i⟩)

/-- One entry of `screeninfo.get_monitors()`: the monitor's origin. -/
structure Monitor where
  x : Int
  y : Int
deriving DecidableEq

/-- Observable external side effects of the `Visualizer`: display-library
calls, file writes, streamer queries and sleeping. -/
inductive Event where
  | namedWindow : String → Event
  | resizeWindow : String → Nat → Nat → Event
  | moveWindow : String → Int → Int → Event
  | imshow : String → PixelData → Event
  | imwrite : String → PixelData → Event
  | waitKeyEv : Int → Event
  | sleepEv : ℚ → Event
  | getTypeEv : Event
  | fpsEv : Event
deriving DecidableEq

/-- The external `BaseStreamer` collaborator, as `video_delay` observes it:
the string form of `get_type()` and the value of `fps()`. -/
structure BaseStreamer where
  stype : String
  fps : ℚ

/-- The `Visualizer` object's fields after `__init__` assigns them. -/
structure Visualizer where
  window_name : String
  shape_drawer : ShapeDrawer
  delay : Int
  no_show : Bool
  output : Option String
  capture_window : Option Unit

/-- `Visualizer.__init__`.  Parameters mirror the Python signature (with the
external drawer behavior `render` and the `screeninfo.get_monitors()` result
passed in); returns the constructed object and the trace of display-library
calls, or an error when no monitor is enumerable (`get_monitors()[0]` raises). -/
def Visualizer.init (render : PixelData → AnnScene → List Label → PixelData)
    (monitors : List Monitor)
    (window_name : Option String) (show_count : Bool) (is_one_label : Bool)
    (no_show : Bool) (delay : Option Int) (output : Option String) :
    Except String (Visualizer × List Event) :=
  -- self.window_name = "Window" if window_name is None else window_name
  let wname : String := match window_name with
    | none => "Window"
    | some n => n
  -- self.delay = delay; if delay is None: self.delay = 1
  let d : Int := match delay with
    | none => 1
    | some k => k
  -- screen = screeninfo.get_monitors()[0]
  match monitors with
  | [] => Except.error "IndexError"
  | screen :: _ =>
    -- window_x = monitor_x + 1200; window_y = monitor_y + 300
    let window_x : Int := screen.x + 1200
    let window_y : Int := screen.y + 300
    Except.ok
      ({ window_name := wname
         shape_drawer := { show_count := show_count, is_one_label := is_one_label,
                           render := render }
         delay := d
         no_show := no_show
         output := output
         capture_window := none },
       [Event.namedWindow wname,
        Event.resizeWindow wname 960 720,
        Event.moveWindow wname window_x window_y])

/-- `Visualizer.draw(image, annotation, meta)`: converts the image RGB→BGR
and delegates to the shape drawer with an empty label override. -/
def Visualizer.draw (v : Visualizer) (h : Heap) (img : NDArray)
    (a : AnnScene) (meta : Option Nat) : NDArray × Heap :=
  -- image = cv2.cvtColor(image, cv2.COLOR_RGB2BGR)
  let p := cvtColor_RGB2BGR h img
  -- return self.shape_drawer.draw(image, annotation, labels=[])
  v.shape_drawer.draw p.2 p.1 a []

/-- `draw` as section 4.1 of the spec describes it: convert the input image's
color channel ordering RGB→BGR, then delegate rendering to the external
shape-drawing collaborator with an empty label set override, returning its
result.  Stated from the spec's words, to be compared with `Visualizer.draw`. -/
def drawSpec (v : Visualizer) (h : Heap) (img : NDArray)
    (a : AnnScene) (meta : Option Nat) : NDArray × Heap :=
  let converted := cvtColor_RGB2BGR h img
  v.shape_drawer.draw converted.2 converted.1 a []

/-- `Visualizer.show(image)`: no display interaction when `no_show`; otherwise
`cv2.imshow`, then `cv2.imwrite` when `self.output` is truthy (a non-`None`,
non-empty string). -/
def Visualizer.show (v : Visualizer) (image : NDArray) : List Event :=
  if v.no_show then []
  else
    let es := [Event.imshow v.window_name image.data]
    -- if self.output:
    match v.output with
    | none => es
    | some p => if p = "" then es else es ++ [Event.imwrite p image.data]

/-- `ord("q")` in Python. -/
def ord_q : Int := (Char.toNat 'q' : Int)

/-- `Visualizer.is_quit()`: `key` is the keycode that `cv2.waitKey(self.delay)`
returns (the display library's poll result, `-1` when no key was pressed).
Returns the boolean result and the trace of display-library calls. -/
def Visualizer.is_quit (v : Visualizer) (key : Int) : Bool × List Event :=
  if v.no_show then (false, [])
  else (ord_q == key, [Event.waitKeyEv v.delay])

/-- Python's `/`: raises `ZeroDivisionError` on a zero divisor (also for
floats). -/
def pydiv (a b : ℚ) : Except String ℚ :=
  if b = 0 then Except.error "ZeroDivisionError" else Except.ok (a / b)

/-- `"VIDEO" in s` for a Python string `s`. -/
def isVideoType (s : String) : Bool :=
  decide (("VIDEO".data) <:+: s.data)

/-- `Visualizer.video_delay(elapsed_time, streamer)`: returns the trace of
streamer queries and sleeps, or the uncaught `ZeroDivisionError`. -/
def Visualizer.video_delay (v : Visualizer) (elapsed_time : ℚ)
    (s : BaseStreamer) : Except String (List Event) :=
  -- if self.no_show: return
  if v.no_show then Except.ok []
  -- if "VIDEO" in str(streamer.get_type()):
  else if isVideoType s.stype then
    -- orig_frame_time = 1 / streamer.fps()
    match pydiv 1 s.fps with
    | Except.error e => Except.error e
    | Except.ok orig_frame_time =>
      -- if elapsed_time < orig_frame_time: time.sleep(orig_frame_time - elapsed_time)
      if elapsed_time < orig_frame_time then
        Except.ok [Event.getTypeEv, Event.fpsEv,
                   Event.sleepEv (orig_frame_time - elapsed_time)]
      else
        Except.ok [Event.getTypeEv, Event.fpsEv]
  else Except.ok [Event.getTypeEv]

/-- Does a trace block the calling thread (contain a sleep)? -/
def isSleepEv : Event → Bool
  | Event.sleepEv _ => true
  | _ => false

/-- A trace blocks iff it contains a `sleepEv`. -/
def blocks (es : List Event) : Bool := es.any isSleepEv

/-- The file system as `show` affects it: path contents by path. -/
abbrev FileSystem := String → Option PixelData

/-- Effect of one event on the file system: `cv2.imwrite` replaces the file at
its path with the image contents; other events leave files alone. -/
def applyEvent (fs : FileSystem) : Event → FileSystem
  | Event.imwrite p d => fun q => if q = p then some d else fs q
  | _ => fs

/-- Effect of a trace on the file system, in order. -/
def applyEvents (fs : FileSystem) (es : List Event) : FileSystem :=
  es.foldl applyEvent fs

/-! Concrete instances used by the witnesses. -/

/-- A concrete drawer behavior for witnesses: rendering leaves pixels as-is. -/
def defaultRender : PixelData → AnnScene → List Label → PixelData :=
  fun d _ _ => d

/-- A concrete heap with one allocated buffer. -/
def heap0 : Heap := ⟨1, fun _ => []⟩

/-- A concrete one-pixel image living in buffer `0`. -/
def img0 : NDArray := ⟨0, [(1, 2, 3)]⟩

/-- A concrete scene token. -/
def scene0 : AnnScene := ⟨0⟩

/-- A concrete video streamer (`str(get_type())` contains `"VIDEO"`, 30 fps). -/
def streamerVid : BaseStreamer := ⟨"StreamerType.VIDEO", 30⟩

/-- A concrete video streamer reporting zero fps. -/
def streamerVid0 : BaseStreamer := ⟨"StreamerType.VIDEO", 0⟩

/-- A concrete non-video streamer. -/
def streamerCam : BaseStreamer := ⟨"StreamerType.CAMERA", 30⟩

/-- A concrete visualizer with display enabled and no output path. -/
def vShow : Visualizer :=
  { window_name := "Window"
    shape_drawer := { show_count := false, is_one_label := false,
                      render := defaultRender }
    delay := 1
    no_show := false
    output := none
    capture_window := none }

/-- `vShow` with display suppressed. -/
def vNoShow : Visualizer := { vShow with no_show := true }

/-- `vShow` with the output path set to the empty string. -/
def vEmptyOut : Visualizer := { vShow with output := some "" }

/-- `vShow` with a non-empty output path. -/
def vOut : Visualizer := { vShow with output := some "out.png" }

/-- The display-library trace of a successful default construction. -/
def evInit0 : List Event :=
  [Event.namedWindow "Window", Event.resizeWindow "Window" 960 720,
   Event.moveWindow "Window" 1200 300]

/-!
## Theorems
-/

/-- C1: with display not suppressed, if the string form of the streamer type
contains `"VIDEO"` (and `fps()` is positive, per the streamer contract),
`video_delay` computes `target_frame_time = 1 / fps` and sleeps for
`target_frame_time - elapsed_time` exactly when `elapsed_time` is below the
target; a non-video streamer never causes a sleep. -/
theorem video_delay_correct (v : Visualizer) (t : ℚ) (s : BaseStreamer)
    (hns : v.no_show = false) :
    (isVideoType s.stype = true → 0 < s.fps →
      v.video_delay t s =
        Except.ok (if t < 1 / s.fps then
            [Event.getTypeEv, Event.fpsEv, Event.sleepEv (1 / s.fps - t)]
          else
            [Event.getTypeEv, Event.fpsEv])) ∧
    (isVideoType s.stype = false →
      ∃ es, v.video_delay t s = Except.ok es ∧ blocks es = false) := by
  constructor
  · intro hvid hfps
    have hne : s.fps ≠ 0 := ne_of_gt hfps
    simp only [Visualizer.video_delay, hns, hvid, pydiv, hne, if_false,
      Bool.false_eq_true, if_true]
    split <;> simp
  · intro hvid
    refine ⟨[Event.getTypeEv], ?_, rfl⟩
    simp [Visualizer.video_delay, hns, hvid]

/-- Witness for C1 at a concrete 30 fps video streamer and zero elapsed time. -/
theorem video_delay_correct_witness :
    vShow.video_delay 0 streamerVid =
      Except.ok (if (0 : ℚ) < 1 / streamerVid.fps then
          [Event.getTypeEv, Event.fpsEv, Event.sleepEv (1 / streamerVid.fps - 0)]
        else
          [Event.getTypeEv, Event.fpsEv]) :=
  (video_delay_correct vShow 0 streamerVid rfl).1 (by decide) (by norm_num [streamerVid])

/-- C2 counterexample: constructing with `no_show = true` still creates,
resizes and moves the display window — the constructor never consults
`no_show`, contrary to the claim that suppression disables window creation. -/
theorem init_no_show_counterexample :
    Visualizer.init defaultRender [⟨0, 0⟩] none false false true none none =
      Except.ok
        ({ window_name := "Window"
           shape_drawer := { show_count := false, is_one_label := false,
                             render := defaultRender }
           delay := 1
           no_show := true
           output := none
           capture_window := none },
         evInit0) := rfl

/-- C2 (amended): whenever at least one monitor is enumerable, the constructor
unconditionally — for either value of `no_show` — creates the named display
surface, resizes it to 960×720, and moves it to the primary monitor's origin
plus (1200, 300), in that order. -/
theorem init_window_events (render : PixelData → AnnScene → List Label → PixelData)
    (screen : Monitor) (rest : List Monitor) (wn : Option String)
    (sc ol ns : Bool) (d : Option Int) (out : Option String) :
    Visualizer.init render (screen :: rest) wn sc ol ns d out =
      Except.ok
        ({ window_name := wn.getD "Window"
           shape_drawer := { show_count := sc, is_one_label := ol, render := render }
           delay := d.getD 1
           no_show := ns
           output := out
           capture_window := none },
         [Event.namedWindow (wn.getD "Window"),
          Event.resizeWindow (wn.getD "Window") 960 720,
          Event.moveWindow (wn.getD "Window") (screen.x + 1200) (screen.y + 300)]) := by
  cases wn <;> cases d <;> rfl

/-- C3: with `no_show = true`, `show` performs no display call and no file
write, `is_quit` returns `false` with no display poll, and `video_delay`
returns without sleeping and without querying the streamer. -/
theorem no_show_inert (v : Visualizer) (img : NDArray) (key : Int) (t : ℚ)
    (s : BaseStreamer) (hns : v.no_show = true) :
    v.show img = [] ∧ v.is_quit key = (false, []) ∧
    v.video_delay t s = Except.ok [] := by
  refine ⟨?_, ?_, ?_⟩ <;>
    simp [Visualizer.show, Visualizer.is_quit, Visualizer.video_delay, hns]

/-- Witness for C3 at a concrete suppressed visualizer. -/
theorem no_show_inert_witness :
    vNoShow.show img0 = [] ∧ vNoShow.is_quit 113 = (false, []) ∧
    vNoShow.video_delay 0 streamerVid = Except.ok [] :=
  no_show_inert vNoShow img0 113 0 streamerVid rfl

/-- C4: with display not suppressed, `is_quit` polls the display once with the
configured delay and returns `true` exactly when the polled keycode equals
`ord("q")` (113); any other keycode — including the no-key result −1 —
yields `false`. -/
theorem is_quit_correct (v : Visualizer) (key : Int) (hns : v.no_show = false) :
    v.is_quit key = (ord_q == key, [Event.waitKeyEv v.delay]) ∧
    ((v.is_quit key).1 = true ↔ key = 113) := by
  have hq : ord_q = 113 := rfl
  constructor
  · simp [Visualizer.is_quit, hns]
  · simp [Visualizer.is_quit, hns, hq]
    exact eq_comm

/-- Witness for C4 at the concrete keycode 113. -/
theorem is_quit_correct_witness :
    vShow.is_quit 113 = (ord_q == 113, [Event.waitKeyEv vShow.delay]) ∧
    ((vShow.is_quit 113).1 = true ↔ (113 : Int) = 113) :=
  is_quit_correct vShow 113 rfl

/-- C5: `draw` equals the spec-side composition (convert RGB→BGR, then hand
the converted image and the scene to the drawer with an empty label
override), and the returned contents are the drawer's rendering of the
converted pixels; the visualizer object itself is not part of the output
state, reflecting that the method assigns no attribute. -/
theorem draw_refines_spec (v : Visualizer) (h : Heap) (img : NDArray)
    (a : AnnScene) (m : Option Nat) :
    v.draw h img a m = drawSpec v h img a m ∧
    (v.draw h img a m).1.data = v.shape_drawer.render (bgrOfRgb img.data) a [] :=
  ⟨rfl, rfl⟩

/-- C6: `draw` applies the RGB→BGR conversion exactly once in the data flow,
returns a buffer distinct from the caller's, and leaves the caller's buffer
contents untouched. -/
theorem draw_no_mutation (v : Visualizer) (h : Heap) (img : NDArray)
    (a : AnnScene) (m : Option Nat) (hid : img.id < h.next) :
    (v.draw h img a m).1.id ≠ img.id ∧
    (v.draw h img a m).2.mem img.id = h.mem img.id ∧
    (v.draw h img a m).1.data = v.shape_drawer.render (bgrOfRgb img.data) a [] := by
  have hne : img.id ≠ h.next := Nat.ne_of_lt hid
  refine ⟨Ne.symm hne, ?_, rfl⟩
  show (if img.id = h.next
      then v.shape_drawer.render (bgrOfRgb img.data) a []
      else if img.id = h.next then bgrOfRgb img.data else h.mem img.id) =
    h.mem img.id
  rw [if_neg hne, if_neg hne]

/-- Witness for C6 at a concrete allocated buffer. -/
theorem draw_no_mutation_witness :
    img0.id < heap0.next ∧
    ((vShow.draw heap0 img0 scene0 none).1.id ≠ img0.id ∧
     (vShow.draw heap0 img0 scene0 none).2.mem img0.id = heap0.mem img0.id ∧
     (vShow.draw heap0 img0 scene0 none).1.data =
       vShow.shape_drawer.render (bgrOfRgb img0.data) scene0 []) :=
  ⟨by decide, draw_no_mutation vShow heap0 img0 scene0 none (by decide)⟩

/-- C7 counterexample: with the output path configured as the empty string
(`output = some ""`, i.e. supplied but falsy) and display enabled, `show`
performs no write — the file at the configured path does not end up holding
the image. -/
theorem show_empty_output_counterexample :
    vEmptyOut.no_show = false ∧ vEmptyOut.output = some "" ∧
    applyEvents (fun _ => none) (vEmptyOut.show img0) "" = none :=
  ⟨rfl, rfl, rfl⟩

/-- C7 (amended): with a non-empty output path configured and display not
suppressed, `show` displays the image and then writes exactly the image
passed to that call at the configured path, fully overwriting any previous
contents there. -/
theorem show_writes_output (v : Visualizer) (img : NDArray) (fs : FileSystem)
    (p : String) (hns : v.no_show = false) (hout : v.output = some p)
    (hp : p ≠ "") :
    applyEvents fs (v.show img) p = some img.data ∧
    v.show img = [Event.imshow v.window_name img.data,
                  Event.imwrite p img.data] := by
  have hshow : v.show img = [Event.imshow v.window_name img.data,
      Event.imwrite p img.data] := by
    simp [Visualizer.show, hns, hout, hp]
  refine ⟨?_, hshow⟩
  rw [hshow]
  simp [applyEvents, applyEvent]

/-- Witness for C7 at a concrete path and an initially empty file system. -/
theorem show_writes_output_witness :
    applyEvents (fun _ => none) (vOut.show img0) "out.png" = some img0.data ∧
    vOut.show img0 = [Event.imshow vOut.window_name img0.data,
                      Event.imwrite "out.png" img0.data] :=
  show_writes_output vOut img0 (fun _ => none) "out.png" rfl rfl (by decide)

/-- C8: the stored delay is 1 when the delay argument is unset and the
supplied value otherwise, and construction with an explicit delay of 1 is
indistinguishable from construction with the delay unset. -/
theorem init_delay_semantics (render : PixelData → AnnScene → List Label → PixelData)
    (monitors : List Monitor) (wn : Option String) (sc ol ns : Bool)
    (dopt : Option Int) (out : Option String) (v : Visualizer) (es : List Event)
    (hok : Visualizer.init render monitors wn sc ol ns dopt out =
      Except.ok (v, es)) :
    v.delay = dopt.getD 1 ∧
    Visualizer.init render monitors wn sc ol ns (some 1) out =
      Visualizer.init render monitors wn sc ol ns none out := by
  constructor
  · cases monitors with
    | nil => simp [Visualizer.init] at hok
    | cons screen rest =>
      simp only [Visualizer.init, Except.ok.injEq, Prod.mk.injEq] at hok
      obtain ⟨hv, -⟩ := hok
      subst hv
      cases dopt <;> rfl
  · cases monitors <;> rfl

/-- Witness for C8 at a concrete successful construction without a delay. -/
theorem init_delay_semantics_witness :
    vShow.delay = (none : Option Int).getD 1 ∧
    Visualizer.init defaultRender [⟨0, 0⟩] none false false false (some 1) none =
      Visualizer.init defaultRender [⟨0, 0⟩] none false false false none none :=
  init_delay_semantics defaultRender [⟨0, 0⟩] none false false false none none
    vShow evInit0 rfl

/-- C9: with display not suppressed and a video-type streamer reporting zero
fps, `video_delay` raises the division-by-zero failure uncaught (so no sleep
occurs). -/
theorem video_delay_zero_fps (v : Visualizer) (t : ℚ) (s : BaseStreamer)
    (hns : v.no_show = false) (hvid : isVideoType s.stype = true)
    (hfps : s.fps = 0) :
    v.video_delay t s = Except.error "ZeroDivisionError" := by
  simp [Visualizer.video_delay, hns, hvid, pydiv, hfps]

/-- Witness for C9 at a concrete zero-fps video streamer. -/
theorem video_delay_zero_fps_witness :
    vShow.video_delay 0 streamerVid0 = Except.error "ZeroDivisionError" :=
  video_delay_zero_fps vShow 0 streamerVid0 rfl (by decide) rfl

/-- C10: `draw` ignores its `meta` argument entirely — any two meta values
(including `none`) produce identical results. -/
theorem draw_meta_independent (v : Visualizer) (h : Heap) (img : NDArray)
    (a : AnnScene) (m₁ m₂ : Option Nat) :
    v.draw h img a m₁ = v.draw h img a m₂ := rfl

end FoodCode
